import Mathlib

/-!
Verification of the MIAW MCP server entry-classification, polling,
session-gating and close-orchestration logic (src/index.ts of the
miaw-mcp-server repository).  The definitions below are a shallow
embedding of that TypeScript source: JavaScript strings become `String`,
optional / possibly-`undefined` fields become `Option`, the `x || d`
idiom on strings (where `""` is falsy) becomes `jsOr`, and the stateful
poll loop becomes a fuel-indexed recursion over an abstract stream of
fetched batches.
-/

/-- Substring prefix test on character lists (`needle` begins `hay`). -/
def charListPref : List Char → List Char → Bool
  | [], _ => true
  | _ :: _, [] => false
  | a :: as, b :: bs => a == b && charListPref as bs

/-- JavaScript `hay.includes(needle)`: `needle` occurs contiguously in `hay`. -/
def strContainsSub (hay needle : String) : Bool :=
  (List.range (hay.data.length + 1)).any fun i => charListPref needle.data (hay.data.drop i)

/-- JavaScript `a || d` on strings: `undefined` and `""` are falsy. -/
def jsOr (a : Option String) (d : String) : String :=
  match a with
  | none => d
  | some s => if s = "" then d else s

/-- JavaScript `a || d` on numbers: `undefined` and `0` are falsy
(`tokenResponse.expiresIn || 3600`). -/
def jsOrNat (a : Option Nat) (d : Nat) : Nat :=
  match a with
  | none => d
  | some n => if n = 0 then d else n

/-- One remote conversation entry as read by src/index.ts.  Every field the
handler dereferences behind `?.` is an `Option`:
`entryType`, `transcriptedTimestamp`, `sender?.role` (`senderRoleField`),
the top-level `senderRole` fallback (`senderRoleTop`), `senderDisplayName`,
`entryPayload?.messageReason` (`messageReason`), the top-level
`messageReason` fallback (`messageReasonTop`),
`entryPayload?.abstractMessage?.staticContent?.text` (`text`),
`entryPayload?.routingType` (`routingType`) and
`entryPayload?.participantChangeType` (`participantChangeType`).
`participantRole` is the participant-role recorded inside a
ParticipantChanged entry payload (the close orchestrator posts it as
`entryPayload.entries[0].role`); the entry-listing handler never reads it. -/
structure ConversationEntry where
  entryType : Option String
  transcriptedTimestamp : Option Nat
  senderRoleField : Option String
  senderRoleTop : Option String
  senderDisplayName : Option String
  messageReason : Option String
  messageReasonTop : Option String
  text : Option String
  routingType : Option String
  participantChangeType : Option String
  participantRole : Option String
deriving DecidableEq

/-- One response of the remote entry-listing endpoint.  The handler reads
`entriesResult.conversationEntries || entriesResult.entries || []`. -/
structure Batch where
  conversationEntries : Option (List ConversationEntry)
  entries : Option (List ConversationEntry)
  continuationToken : Option String
deriving DecidableEq

/-- `entriesResult.conversationEntries || entriesResult.entries || []`
(a present array is truthy in JavaScript even when empty). -/
def rawOfBatch (b : Batch) : List ConversationEntry :=
  match b.conversationEntries with
  | some l => l
  | none => b.entries.getD []

/-- The four boilerplate phrases tested by `messageText.includes(...)` at
every filter site of src/index.ts. -/
def hasSystemPhrase (t : String) : Bool :=
  strContainsSub t "One moment while I connect you" ||
  strContainsSub t "connect you to the next available" ||
  strContainsSub t "thanks for reaching out" ||
  strContainsSub t "We will be with you shortly"

/-- The JavaScript test `e.entryType === "Message"`. -/
def isMessageEntry (e : ConversationEntry) : Bool :=
  e.entryType == some "Message"

/-- Noise test shared verbatim by the `responseMessages` filter and the
`show_salesforce_chat` transcript filter: Automated-Process sender, or
`messageReason` equal to AutomatedResponse, or a boilerplate phrase. -/
def isNoise (e : ConversationEntry) : Bool :=
  strContainsSub ((e.senderDisplayName).getD "") "Automated Process"
  || ((e.messageReason).getD "" == "AutomatedResponse")
  || hasSystemPhrase ((e.text).getD "")

/-- The poll-stop check of the poll loop (`isValidResponse`): the
absolute most recent message must be Chatbot/Agent, must not contain a
boilerplate phrase and must not come from an "Automated Process" sender.
The check of the loop does not consult `messageReason`. -/
def pollStopValid (most : Option ConversationEntry) : Bool :=
  let absoluteRole := (most.bind fun e => e.senderRoleField).getD ""
  let absoluteSender := (most.bind fun e => e.senderDisplayName).getD ""
  let absoluteText := (most.bind fun e => e.text).getD ""
  ((absoluteRole == "Chatbot") || (absoluteRole == "Agent"))
    && !(hasSystemPhrase absoluteText)
    && !(strContainsSub absoluteSender "Automated Process")

/-- The `responseMessages` filter body (role metadata): only Chatbot/Agent,
with the strict noise checks.  The System-or-empty-or-missing role test
collapses to `role == ""` or `role == "System"` once the empty-string default has
been applied. -/
def respFilter (e : ConversationEntry) : Bool :=
  let sender := (e.senderDisplayName).getD ""
  let role := (e.senderRoleField).getD ""
  let reason := (e.messageReason).getD ""
  let messageText := (e.text).getD ""
  let isSystemRole := (role == "System") || (role == "")
  let isAutomatedProcess := strContainsSub sender "Automated Process"
  let isAutomatedResponse := reason == "AutomatedResponse"
  let isSystemMessage := hasSystemPhrase messageText
  let isResponseRole := (role == "Chatbot") || (role == "Agent")
  isResponseRole && !isSystemRole && !isAutomatedProcess && !isAutomatedResponse && !isSystemMessage

/-- The `filteredEntries` filter body (the verbatim-reply view `entries`):
rejects non-Message entries, System/empty roles, EndUser, senders
containing "Automated Process" or "automated", AutomatedResponse
reasons (with a top-level `messageReason` fallback), boilerplate
phrases, and any non-Chatbot/Agent role. -/
def verbatimFilter (e : ConversationEntry) : Bool :=
  if !(e.entryType == some "Message") then false
  else
    let sender := (e.senderDisplayName).getD ""
    let role := (e.senderRoleField).getD ""
    let reason := jsOr e.messageReason (jsOr e.messageReasonTop "")
    let messageText := (e.text).getD ""
    let isSystemRole := (role == "System") || (role == "")
    let isEndUser := role == "EndUser"
    let isAutomatedProcess := strContainsSub sender "Automated Process" || strContainsSub sender "automated"
    let isAutomatedResponse := reason == "AutomatedResponse"
    let isSystemMessage := hasSystemPhrase messageText
    let isResponseRole := (role == "Chatbot") || (role == "Agent")
    let shouldReject := isSystemRole || isEndUser || isAutomatedProcess || isAutomatedResponse || isSystemMessage || !isResponseRole
    !shouldReject

/-- The `show_salesforce_chat` transcript filter (`allMessages`): Message
entries whose role is Chatbot, Agent or EndUser, with the strict noise
checks (the same three tests as `respFilter`). -/
def widgetFilter (e : ConversationEntry) : Bool :=
  (e.entryType == some "Message") &&
  (let sender := (e.senderDisplayName).getD ""
   let role := (e.senderRoleField).getD ""
   let reason := (e.messageReason).getD ""
   let messageText := (e.text).getD ""
   let isSystemRole := (role == "System") || (role == "")
   let isAutomatedProcess := strContainsSub sender "Automated Process"
   let isAutomatedResponse := reason == "AutomatedResponse"
   let isSystemMessage := hasSystemPhrase messageText
   let isValidRole := (role == "Chatbot") || (role == "Agent") || (role == "EndUser")
   isValidRole && !isSystemRole && !isAutomatedProcess && !isAutomatedResponse && !isSystemMessage)

/-- The immediate-mode (`skipPolling`) fallback filter `validMsgs`:
role is Chatbot or Agent, with no noise check at all. -/
def vmRoleFilter (e : ConversationEntry) : Bool :=
  let r := (e.senderRoleField).getD ""
  (r == "Chatbot") || (r == "Agent")

/-- The close-event test of `closeEvents`: ConversationClose, or a
RoutingResult with routingType EndConversation, or a ParticipantChanged
whose payload change type is Left (the participant role is not read). -/
def isCloseEvent (e : ConversationEntry) : Bool :=
  (e.entryType == some "ConversationClose")
  || ((e.entryType == some "RoutingResult") && (e.routingType == some "EndConversation"))
  || ((e.entryType == some "ParticipantChanged") && (e.participantChangeType == some "Left"))

/-- `closeEvents` of a raw batch. -/
def closeEventsOf (raw : List ConversationEntry) : List ConversationEntry :=
  raw.filter isCloseEvent

/-- `conversationEnded = closeEvents.length > 0`. -/
def conversationEndedB (raw : List ConversationEntry) : Bool :=
  (closeEventsOf raw).length != 0

/-- Sort key: `transcriptedTimestamp || 0` (missing timestamps sort oldest). -/
def tsOf (e : ConversationEntry) : Nat :=
  (e.transcriptedTimestamp).getD 0

/-- Stable insertion into a descending-by-timestamp list: an element passes
an already placed one only when that one has a strictly larger key, so
insertion keeps earlier elements of the original list in front of
equal-key later ones — the same result as the (stable) JavaScript
`sort((a, b) => (b.transcriptedTimestamp || 0) - (a.transcriptedTimestamp || 0))`. -/
def insertByTsDesc (e : ConversationEntry) : List ConversationEntry → List ConversationEntry
  | [] => [e]
  | x :: xs => if tsOf e < tsOf x then x :: insertByTsDesc e xs else e :: x :: xs

/-- Stable descending sort by `transcriptedTimestamp || 0`. -/
def sortByTsDesc (l : List ConversationEntry) : List ConversationEntry :=
  l.foldr insertByTsDesc []

/-- First element attaining the maximal timestamp key (ties keep the
earlier element): the head of the stable descending sort. -/
def firstMax : List ConversationEntry → Option ConversationEntry
  | [] => none
  | x :: xs =>
    match firstMax xs with
    | none => some x
    | some m => if tsOf x < tsOf m then some m else some x

/-- `allMessages[0]`: the absolute most recent Message entry of a batch. -/
def mostRecentMessageOf (raw : List ConversationEntry) : Option ConversationEntry :=
  (sortByTsDesc (raw.filter isMessageEntry)).head?

/-- `responseMessages[0]`: the most recent qualifying (non-noise
Chatbot/Agent) Message entry of a batch. -/
def mostRecentResponseOf (raw : List ConversationEntry) : Option ConversationEntry :=
  (sortByTsDesc ((raw.filter isMessageEntry).filter respFilter)).head?

/-- The poll-stop check applied to one fetched batch. -/
def stopCheckB (b : Batch) : Bool :=
  pollStopValid (mostRecentMessageOf (rawOfBatch b))

/-- Loop state carried out of the entry-listing poll loop: the last batch
fetched (`entriesResult`), `foundValidMessage`, and the role/sender
captured at the successful stop. -/
structure PollState where
  entriesResult : Batch
  foundValidMessage : Bool
  mostRecentValidRole : String
  mostRecentValidSender : String
deriving DecidableEq

/-- Loop state on a successful stop: `foundValidMessage := true` and the
role and sender of the absolute most recent message captured. -/
def foundStateOf (b : Batch) : PollState :=
  let most := mostRecentMessageOf (rawOfBatch b)
  { entriesResult := b
    foundValidMessage := true
    mostRecentValidRole := (most.bind fun e => e.senderRoleField).getD ""
    mostRecentValidSender := (most.bind fun e => e.senderDisplayName).getD "" }

/-- Loop state when the deadline elapses on a non-qualifying batch. -/
def deadlineStateOf (b : Batch) : PollState :=
  { entriesResult := b
    foundValidMessage := false
    mostRecentValidRole := ""
    mostRecentValidSender := "" }

/-- Advance the abstract fetch stream by one poll iteration. -/
def shiftFetch (fetch : Nat → Batch) : Nat → Batch :=
  fun k => fetch (k + 1)

/-- The polling-mode loop (`shouldPoll = true`): fetch a batch, stop
successfully when its absolute most recent message passes the poll-stop
check, otherwise wait and refetch; `fuel` counts the further iterations
the 25-second deadline still allows, and when it runs out the loop exits
with the last (non-qualifying) batch and `foundValidMessage = false`. -/
def pollLoopGo (fetch : Nat → Batch) : Nat → PollState
  | 0 =>
    if stopCheckB (fetch 0) then foundStateOf (fetch 0) else deadlineStateOf (fetch 0)
  | n + 1 =>
    if stopCheckB (fetch 0) then foundStateOf (fetch 0) else pollLoopGo (shiftFetch fetch) n

/-- Number of entry-listing calls the polling-mode loop issues. -/
def pollCalls (fetch : Nat → Batch) : Nat → Nat
  | 0 => 1
  | n + 1 => if stopCheckB (fetch 0) then 1 else pollCalls (shiftFetch fetch) n + 1

/-- The immediate mode (`skipPolling = true`, widget requests): one fetch;
if the poll-stop check fails, fall back to the most recent Chatbot/Agent
message of `validMsgs` (with no noise filtering) for the captured
role/sender. -/
def pollImmediate (b : Batch) : PollState :=
  if stopCheckB b then foundStateOf b
  else
    match ((sortByTsDesc ((rawOfBatch b).filter isMessageEntry)).filter vmRoleFilter).head? with
    | some m =>
      { entriesResult := b
        foundValidMessage := true
        mostRecentValidRole := (m.senderRoleField).getD ""
        mostRecentValidSender := (m.senderDisplayName).getD "" }
    | none =>
      { entriesResult := b
        foundValidMessage := false
        mostRecentValidRole := ""
        mostRecentValidSender := "" }

/-- The four literal `instruction` strings of `_roleInfo`, by the branch of
the nested conditional that produces them. -/
inductive Instruction where
  | ended
  | handOffToLiveAgent
  | keepPolling
  | verbatimReply
deriving DecidableEq

/-- `_roleInfo` of the list_conversation_entries result (without the
`sessionIdToUse` / `conversationIdToUse` argument pass-throughs). -/
structure RoleInfo where
  mostRecentSenderRole : String
  mostRecentSenderName : String
  isLiveAgent : Bool
  conversationEnded : Bool
  instruction : Instruction
deriving DecidableEq

/-- The list_conversation_entries result: the verbatim-filtered `entries`,
the `_rawEntries` of the final batch, its `continuationToken`, and
`_roleInfo`. -/
structure ListEntriesResult where
  entries : List ConversationEntry
  rawEntries : List ConversationEntry
  continuationToken : Option String
  roleInfo : RoleInfo
deriving DecidableEq

/-- Builds the tool result from the final loop state, exactly as the
handler does after the loop: recompute `responseMessages` over the last
batch, derive `senderRole`/`senderDisplayName` with the Unknown
fallbacks, set `isLiveAgent` to whether senderRole is Agent, filter the
verbatim view, detect close events, and pick the instruction branch. -/
def buildResult (st : PollState) : ListEntriesResult :=
  let raw := rawOfBatch st.entriesResult
  let mostRecentResponse := mostRecentResponseOf raw
  let senderRole :=
    jsOr (mostRecentResponse.bind fun e => e.senderRoleField)
      (jsOr (mostRecentResponse.bind fun e => e.senderRoleTop) "Unknown")
  let senderName := jsOr (mostRecentResponse.bind fun e => e.senderDisplayName) "Unknown"
  let isLiveAgent := senderRole == "Agent"
  let ended := conversationEndedB raw
  { entries := raw.filter verbatimFilter
    rawEntries := raw
    continuationToken := st.entriesResult.continuationToken
    roleInfo :=
      { mostRecentSenderRole := senderRole
        mostRecentSenderName := senderName
        isLiveAgent := isLiveAgent
        conversationEnded := ended
        instruction :=
          if ended then Instruction.ended
          else if isLiveAgent then Instruction.handOffToLiveAgent
          else if (!st.foundValidMessage) || (senderRole == "Unknown") then Instruction.keepPolling
          else Instruction.verbatimReply } }

/-- The list_conversation_entries tool body after the session gate:
polling mode runs the deadline loop, immediate mode fetches once, and
the result is built from the final state. -/
def listConversationEntriesTool (shouldPoll : Bool) (fetch : Nat → Batch) (fuel : Nat) :
    ListEntriesResult :=
  buildResult (if shouldPoll then pollLoopGo fetch fuel else pollImmediate (fetch 0))

/-- The five remote operations of `closeConversationAndSession`, in the
fixed order the orchestrator tries them. -/
inductive CloseMethod where
  | participantLeftEntry
  | routingEndEntry
  | closeTextMessage
  | sessionEndDelete
  | conversationDelete
deriving DecidableEq

/-- `MIAWClient.closeConversationAndSession`, modelled over an environment
`env` saying which remote operations would succeed; the value is the
list of operations actually attempted, in order.  Methods 1 and 2
(participant-left entry, routing-end entry) `return` on success; each of
methods 3, 4 and 5 is wrapped in its own try/catch with no early return,
so once methods 1 and 2 have failed all three are attempted regardless
of their outcomes, and every failure is swallowed (the orchestrator
never throws). -/
def closeConversationAndSession (env : CloseMethod → Bool) : List CloseMethod :=
  if env CloseMethod.participantLeftEntry then
    [CloseMethod.participantLeftEntry]
  else if env CloseMethod.routingEndEntry then
    [CloseMethod.participantLeftEntry, CloseMethod.routingEndEntry]
  else
    [CloseMethod.participantLeftEntry, CloseMethod.routingEndEntry,
     CloseMethod.closeTextMessage, CloseMethod.sessionEndDelete,
     CloseMethod.conversationDelete]

/-- Result of the `close_conversation` tool: the reported payload plus the
remote close operations attempted. -/
structure CloseToolResult where
  success : Bool
  message : String
  calls : List CloseMethod
deriving DecidableEq

/-- A stored session: the server-held bearer credential and the
conversation attached to it. -/
structure Session where
  accessToken : String
  conversationId : Option String
deriving DecidableEq

/-- The in-memory session store (`sessions : Map<string, {...}>`),
as an association list. -/
def SessionStore : Type := List (String × Session)

/-- `sessions.get(sessionId)`. -/
def lookupSession (store : SessionStore) (sid : String) : Option Session :=
  match store with
  | [] => none
  | (k, v) :: rest => if k = sid then some v else lookupSession rest sid

/-- The session gate `if (args.sessionId) { if (!session) throw ... }`:
it throws exactly when a *truthy* (present, non-empty) sessionId is
supplied that the store does not know.  An absent or empty-string
sessionId skips the check entirely. -/
def sessionLookupThrows (store : SessionStore) (sid : Option String) : Bool :=
  match sid with
  | none => false
  | some s => if s = "" then false else (lookupSession store s).isNone

/-- The literal error thrown by the session gate. -/
def invalidSessionMsg : String :=
  "Invalid sessionId. Please generate a new session first."

/-- The kinds of remote calls the session-gated tool handlers issue. -/
inductive RemoteCall where
  | createConversation
  | sendMessage
  | listEntries
  | routingStatus
deriving DecidableEq

/-- Trace of one tool-handler execution: the remote calls it issued and
the error it threw, if any. -/
structure ToolTrace where
  calls : List RemoteCall
  errorMsg : Option String
deriving DecidableEq

/-- `create_conversation`: the session gate runs first; the remote
createConversation call is issued only when the gate passes. -/
def createConversationTrace (store : SessionStore) (sid : Option String) : ToolTrace :=
  if sessionLookupThrows store sid then { calls := [], errorMsg := some invalidSessionMsg }
  else { calls := [RemoteCall.createConversation], errorMsg := none }

/-- `send_message`: session gate first, then the remote sendMessage call. -/
def sendMessageTrace (store : SessionStore) (sid : Option String) : ToolTrace :=
  if sessionLookupThrows store sid then { calls := [], errorMsg := some invalidSessionMsg }
  else { calls := [RemoteCall.sendMessage], errorMsg := none }

/-- `get_conversation_routing_status`: session gate first, then the remote
routing-status call. -/
def routingStatusTrace (store : SessionStore) (sid : Option String) : ToolTrace :=
  if sessionLookupThrows store sid then { calls := [], errorMsg := some invalidSessionMsg }
  else { calls := [RemoteCall.routingStatus], errorMsg := none }

/-- `list_conversation_entries`: session gate first, then the entry-listing
calls of the poll loop. -/
def listEntriesTrace (store : SessionStore) (sid : Option String)
    (fetch : Nat → Batch) (fuel : Nat) : ToolTrace :=
  if sessionLookupThrows store sid then { calls := [], errorMsg := some invalidSessionMsg }
  else { calls := List.replicate (pollCalls fetch fuel) RemoteCall.listEntries, errorMsg := none }

/-- The `close_conversation` tool: an unknown (or absent) sessionId is only
logged, never thrown; the orchestrator is called regardless, it never
throws (every method failure is caught), so the `try` branch always
reports success true with the Conversation-closed message. -/
def closeConversationTool (_store : SessionStore) (_sid : Option String)
    (env : CloseMethod → Bool) : CloseToolResult :=
  { success := true
    message := "Conversation closed"
    calls := closeConversationAndSession env }

/-- The remote token-issuance response; src/index.ts reads its
`accessToken` (`response.data.accessToken`) and `expiresIn` fields. -/
structure AccessTokenResponse where
  accessToken : String
  expiresIn : Option Nat
deriving DecidableEq

/-- The payload `generate_guest_access_token` returns to the caller:
sessionId, expiresIn and a fixed message — no token field exists. -/
structure GuestTokenResult where
  sessionId : String
  expiresIn : Nat
  message : String
deriving DecidableEq

/-- `generate_guest_access_token`: store the credential server-side under a
fresh sessionId and hand the caller only the sessionId, the expiry and a
fixed message. -/
def handleGuestToken (store : SessionStore) (newSessionId : String)
    (resp : AccessTokenResponse) : SessionStore × GuestTokenResult :=
  ((newSessionId, { accessToken := resp.accessToken, conversationId := none }) :: store,
   { sessionId := newSessionId
     expiresIn := jsOrNat resp.expiresIn 3600
     message := "Session created successfully. Use this sessionId for all subsequent calls." })

/-- `generate_authenticated_access_token`: the handler assigns the remote
token response directly to `result`, so the caller receives it
unchanged. -/
def handleAuthenticatedToken (resp : AccessTokenResponse) : AccessTokenResponse :=
  resp

/-- Modelled from the spec: "a ParticipantChanged entry whose payload
indicates the end-user role left" — the participant change type is
`Left` and the participant role recorded in the payload is `EndUser`.
The detection code in src/index.ts reads no participant role, so this
spec-side predicate exists only to be compared with `isCloseEvent`. -/
def specIndicatesEndUserLeft (e : ConversationEntry) : Bool :=
  (e.entryType == some "ParticipantChanged")
  && (e.participantChangeType == some "Left")
  && (e.participantRole == some "EndUser")

/-- Modelled from the spec: the conversation-ended test of the spec for a single
entry — ConversationClose, or RoutingResult with EndConversation, or a
ParticipantChanged entry indicating the end-user left. -/
def specCloseEvent (e : ConversationEntry) : Bool :=
  (e.entryType == some "ConversationClose")
  || ((e.entryType == some "RoutingResult") && (e.routingType == some "EndConversation"))
  || specIndicatesEndUserLeft e

theorem head?_sortByTsDesc : ∀ l : List ConversationEntry, (sortByTsDesc l).head? = firstMax l := by
  intro l
  induction l with
  | nil => rfl
  | cons x xs ih =>
    have hsort : sortByTsDesc (x :: xs) = insertByTsDesc x (sortByTsDesc xs) := rfl
    rw [hsort]
    cases hs : sortByTsDesc xs with
    | nil =>
      have hn : firstMax xs = none := by rw [← ih, hs]; rfl
      simp [insertByTsDesc, firstMax, hn]
    | cons y ys =>
      have hy : firstMax xs = some y := by rw [← ih, hs]; rfl
      by_cases hlt : tsOf x < tsOf y
      · simp [insertByTsDesc, hlt, firstMax, hy]
      · simp [insertByTsDesc, hlt, firstMax, hy]

theorem firstMax_eq_none : ∀ l : List ConversationEntry, firstMax l = none ↔ l = [] := by
  intro l
  cases l with
  | nil => simp [firstMax]
  | cons x xs =>
    cases hx : firstMax xs with
    | none => simp [firstMax, hx]
    | some m => by_cases hlt : tsOf x < tsOf m <;> simp [firstMax, hx, hlt]

theorem firstMax_mem : ∀ (l : List ConversationEntry) (e : ConversationEntry), firstMax l = some e → e ∈ l := by
  intro l
  induction l with
  | nil => intro e h; exact absurd h (by simp [firstMax])
  | cons x xs ih =>
    intro e h
    cases hx : firstMax xs with
    | none =>
      simp only [firstMax, hx] at h
      exact (Option.some.inj h) ▸ List.mem_cons_self x xs
    | some m =>
      simp only [firstMax, hx] at h
      by_cases hlt : tsOf x < tsOf m
      · rw [if_pos hlt] at h
        exact (Option.some.inj h) ▸ List.mem_cons_of_mem x (ih m hx)
      · rw [if_neg hlt] at h
        exact (Option.some.inj h) ▸ List.mem_cons_self x xs

theorem firstMax_le : ∀ (l : List ConversationEntry) (m : ConversationEntry), firstMax l = some m →
    ∀ y ∈ l, tsOf y ≤ tsOf m := by
  intro l
  induction l with
  | nil => intro m _ y hy; exact absurd hy (List.not_mem_nil y)
  | cons x xs ih =>
    intro m h y hy
    cases hx : firstMax xs with
    | none =>
      have hxe : xs = [] := (firstMax_eq_none xs).mp hx
      simp only [firstMax, hx] at h
      have hxm : x = m := Option.some.inj h
      subst hxe
      rcases List.mem_cons.mp hy with hyx | hyn
      · subst hyx; exact hxm ▸ Nat.le_refl _
      · exact absurd hyn (List.not_mem_nil y)
    | some m' =>
      simp only [firstMax, hx] at h
      by_cases hlt : tsOf x < tsOf m'
      · rw [if_pos hlt] at h
        have hm : m' = m := Option.some.inj h
        rcases List.mem_cons.mp hy with hyx | hyxs
        · subst hyx; exact hm ▸ Nat.le_of_lt hlt
        · exact hm ▸ ih m' hx y hyxs
      · rw [if_neg hlt] at h
        have hm : x = m := Option.some.inj h
        rcases List.mem_cons.mp hy with hyx | hyxs
        · subst hyx; exact hm ▸ Nat.le_refl _
        · exact hm ▸ Nat.le_trans (ih m' hx y hyxs) (Nat.le_of_not_lt hlt)

theorem firstMax_filter : ∀ (l : List ConversationEntry) (p : ConversationEntry → Bool) (e : ConversationEntry),
    firstMax l = some e → p e = true → firstMax (l.filter p) = some e := by
  intro l
  induction l with
  | nil => intro p e h _; exact absurd h (by simp [firstMax])
  | cons x xs ih =>
    intro p e h hp
    cases hx : firstMax xs with
    | none =>
      have hxe : xs = [] := (firstMax_eq_none xs).mp hx
      simp only [firstMax, hx] at h
      have hxm : x = e := Option.some.inj h
      subst hxe
      subst hxm
      simp [List.filter, hp, firstMax]
    | some m =>
      simp only [firstMax, hx] at h
      by_cases hlt : tsOf x < tsOf m
      · rw [if_pos hlt] at h
        have hme : m = e := Option.some.inj h
        subst hme
        have ihm : firstMax (xs.filter p) = some m := ih p m hx hp
        by_cases hpx : p x = true
        · simp only [List.filter_cons, hpx, if_pos]
          simp only [firstMax, ihm]
          rw [if_pos hlt]
        · simp only [List.filter_cons, hpx]
          simpa using ihm
      · rw [if_neg hlt] at h
        have hxm : x = e := Option.some.inj h
        subst hxm
        simp only [List.filter_cons, hp, if_pos]
        cases hf : firstMax (xs.filter p) with
        | none => simp only [firstMax, hf]
        | some m' =>
          have hm' : m' ∈ xs.filter p := firstMax_mem _ _ hf
          have hm'xs : m' ∈ xs := List.mem_of_mem_filter hm'
          have hle : tsOf m' ≤ tsOf m := firstMax_le xs m hx m' hm'xs
          have hnlt : ¬ tsOf x < tsOf m' :=
            Nat.not_lt.mpr (Nat.le_trans hle (Nat.le_of_not_lt hlt))
          simp only [firstMax, hf]
          rw [if_neg hnlt]

theorem mostRecentResponseOf_eq_of_mostRecent (raw : List ConversationEntry) (e : ConversationEntry)
    (hm : mostRecentMessageOf raw = some e) (hq : respFilter e = true) :
    mostRecentResponseOf raw = some e := by
  unfold mostRecentMessageOf at hm
  unfold mostRecentResponseOf
  rw [head?_sortByTsDesc] at hm
  rw [head?_sortByTsDesc]
  exact firstMax_filter _ _ _ hm hq

theorem respFilter_of_mostRecentResponse (raw : List ConversationEntry) (e : ConversationEntry)
    (h : mostRecentResponseOf raw = some e) : respFilter e = true := by
  unfold mostRecentResponseOf at h
  rw [head?_sortByTsDesc] at h
  exact (List.mem_filter.mp (firstMax_mem _ _ h)).2

theorem respFilter_role (e : ConversationEntry) (h : respFilter e = true) :
    (e.senderRoleField).getD "" = "Chatbot" ∨ (e.senderRoleField).getD "" = "Agent" := by
  simp only [respFilter, Bool.and_eq_true, Bool.or_eq_true, beq_iff_eq] at h
  exact h.1.1.1.1

theorem jsOr_of_getD_ne (o : Option String) (d : String) (h : o.getD "" ≠ "") :
    jsOr o d = o.getD "" := by
  cases o with
  | none => exact absurd rfl h
  | some s =>
    simp only [Option.getD] at h ⊢
    simp [jsOr, h]

theorem isNoise_false_parts (e : ConversationEntry) (h : isNoise e = false) :
    strContainsSub ((e.senderDisplayName).getD "") "Automated Process" = false
    ∧ ((e.messageReason).getD "" == "AutomatedResponse") = false
    ∧ hasSystemPhrase ((e.text).getD "") = false := by
  simp only [isNoise, Bool.or_eq_false_iff] at h
  exact ⟨h.1.1, h.1.2, h.2⟩

theorem pollLoopGo_stop_first :
    ∀ (n : Nat) (fetch : Nat → Batch) (i : Nat), i ≤ n →
      (∀ j, j < i → stopCheckB (fetch j) = false) →
      stopCheckB (fetch i) = true →
      pollLoopGo fetch n = foundStateOf (fetch i) := by
  intro n
  induction n with
  | zero =>
    intro fetch i hi hfirst hstop
    have h0 : i = 0 := Nat.le_zero.mp hi
    subst h0
    simp [pollLoopGo, hstop]
  | succ n ih =>
    intro fetch i hi hfirst hstop
    cases i with
    | zero =>
      simp [pollLoopGo, hstop]
    | succ k =>
      have h0 : stopCheckB (fetch 0) = false := hfirst 0 (Nat.succ_pos k)
      simp only [pollLoopGo, h0, Bool.false_eq_true, if_false]
      have hfirst' : ∀ j, j < k → stopCheckB (shiftFetch fetch j) = false := by
        intro j hj
        exact hfirst (j + 1) (Nat.succ_lt_succ hj)
      have hstop' : stopCheckB (shiftFetch fetch k) = true := hstop
      exact ih (shiftFetch fetch) k (Nat.le_of_succ_le_succ hi) hfirst' hstop'

theorem pollLoopGo_deadline :
    ∀ (n : Nat) (fetch : Nat → Batch),
      (∀ i, i ≤ n → stopCheckB (fetch i) = false) →
      pollLoopGo fetch n = deadlineStateOf (fetch n) := by
  intro n
  induction n with
  | zero =>
    intro fetch h
    simp [pollLoopGo, h 0 (Nat.le_refl 0)]
  | succ n ih =>
    intro fetch h
    simp only [pollLoopGo, h 0 (Nat.zero_le _), Bool.false_eq_true, if_false]
    exact ih (shiftFetch fetch) fun i hi => h (i + 1) (Nat.succ_le_succ hi)

theorem pollLoopGo_found_iff :
    ∀ (n : Nat) (fetch : Nat → Batch),
      ((pollLoopGo fetch n).foundValidMessage = true) ↔ ∃ i, i ≤ n ∧ stopCheckB (fetch i) = true := by
  intro n
  induction n with
  | zero =>
    intro fetch
    by_cases h : stopCheckB (fetch 0) = true
    · simp [pollLoopGo, h, foundStateOf]
    · have h' : stopCheckB (fetch 0) = false := Bool.eq_false_iff.mpr h
      simp only [pollLoopGo, h', Bool.false_eq_true, if_false, deadlineStateOf]
      constructor
      · intro hc; exact absurd hc (by simp)
      · rintro ⟨i, hi, hsi⟩
        have : i = 0 := Nat.le_zero.mp hi
        subst this
        exact absurd hsi (by simp [h'])
  | succ n ih =>
    intro fetch
    by_cases h : stopCheckB (fetch 0) = true
    · simp only [pollLoopGo, h, if_true, foundStateOf]
      constructor
      · intro _; exact ⟨0, Nat.zero_le _, h⟩
      · intro _; trivial
    · have h' : stopCheckB (fetch 0) = false := Bool.eq_false_iff.mpr h
      simp only [pollLoopGo, h', Bool.false_eq_true, if_false]
      rw [ih (shiftFetch fetch)]
      constructor
      · rintro ⟨i, hi, hsi⟩
        exact ⟨i + 1, Nat.succ_le_succ hi, hsi⟩
      · rintro ⟨i, hi, hsi⟩
        cases i with
        | zero => exact absurd hsi (by simp [h'])
        | succ k => exact ⟨k, Nat.le_of_succ_le_succ hi, hsi⟩

theorem pollLoopGo_shape :
    ∀ (n : Nat) (fetch : Nat → Batch),
      pollLoopGo fetch n =
        (if stopCheckB ((pollLoopGo fetch n).entriesResult)
         then foundStateOf ((pollLoopGo fetch n).entriesResult)
         else deadlineStateOf ((pollLoopGo fetch n).entriesResult)) := by
  intro n
  induction n with
  | zero =>
    intro fetch
    by_cases h : stopCheckB (fetch 0) = true
    · simp [pollLoopGo, h, foundStateOf]
    · have h' : stopCheckB (fetch 0) = false := Bool.eq_false_iff.mpr h
      simp [pollLoopGo, h', foundStateOf, deadlineStateOf]
  | succ n ih =>
    intro fetch
    by_cases h : stopCheckB (fetch 0) = true
    · simp [pollLoopGo, h, foundStateOf]
    · have h' : stopCheckB (fetch 0) = false := Bool.eq_false_iff.mpr h
      simp only [pollLoopGo, h', Bool.false_eq_true, if_false]
      exact ih (shiftFetch fetch)

/-- A live-agent message entry: Message, role Agent, clean text and sender. -/
def agentEntry : ConversationEntry :=
  { entryType := some "Message"
    transcriptedTimestamp := some 30
    senderRoleField := some "Agent"
    senderRoleTop := none
    senderDisplayName := some "Sam"
    messageReason := none
    messageReasonTop := none
    text := some "Hi, I am Sam. How can I help?"
    routingType := none
    participantChangeType := none
    participantRole := none }

/-- The earlier message of the end-user. -/
def endUserEntry : ConversationEntry :=
  { entryType := some "Message"
    transcriptedTimestamp := some 20
    senderRoleField := some "EndUser"
    senderRoleTop := none
    senderDisplayName := some "Visitor"
    messageReason := none
    messageReasonTop := none
    text := some "hi"
    routingType := none
    participantChangeType := none
    participantRole := none }

/-- A Chatbot message flagged `messageReason = AutomatedResponse` whose text
and sender are otherwise clean: noise per the strict three-part test, yet
invisible to the poll-stop check. -/
def botNoiseEntry : ConversationEntry :=
  { entryType := some "Message"
    transcriptedTimestamp := some 10
    senderRoleField := some "Chatbot"
    senderRoleTop := none
    senderDisplayName := some "Einstein Bot"
    messageReason := some "AutomatedResponse"
    messageReasonTop := none
    text := some "Here is the answer to your question."
    routingType := none
    participantChangeType := none
    participantRole := none }

/-- A ParticipantChanged entry recording that an *Agent* (not the end-user)
left the conversation. -/
def agentLeftEntry : ConversationEntry :=
  { entryType := some "ParticipantChanged"
    transcriptedTimestamp := some 40
    senderRoleField := none
    senderRoleTop := none
    senderDisplayName := none
    messageReason := none
    messageReasonTop := none
    text := none
    routingType := none
    participantChangeType := some "Left"
    participantRole := some "Agent" }

/-- A batch whose most recent message is the qualifying agent reply. -/
def agentBatch : Batch :=
  { conversationEntries := some [endUserEntry, agentEntry]
    entries := none
    continuationToken := some "tok-next" }

/-- A fetch stream that always returns `agentBatch`. -/
def agentFetch : Nat → Batch := fun _ => agentBatch

/-- A batch whose most recent (and only) message is `botNoiseEntry`. -/
def noiseBatch : Batch :=
  { conversationEntries := some [botNoiseEntry]
    entries := none
    continuationToken := none }

/-- A fetch stream that always returns `noiseBatch`. -/
def noiseFetch : Nat → Batch := fun _ => noiseBatch

/-- Close environment in which only method 3 (the free-text close message)
succeeds. -/
def method3Env : CloseMethod → Bool := fun m => m == CloseMethod.closeTextMessage

/-- A store holding one known session. -/
def demoStore : SessionStore :=
  [("abc123", { accessToken := "server-held-token", conversationId := none })]

/-- C4 counterexample: when methods 1 and 2 fail and method 3 (the free-text
close message) succeeds, the orchestrator still attempts methods 4 and 5 —
refuting the claim that no further method is ever attempted after a
method that succeeds. -/
theorem c4_counterexample :
    method3Env CloseMethod.closeTextMessage = true
    ∧ closeConversationAndSession method3Env =
        [CloseMethod.participantLeftEntry, CloseMethod.routingEndEntry,
         CloseMethod.closeTextMessage, CloseMethod.sessionEndDelete,
         CloseMethod.conversationDelete] :=
  ⟨rfl, rfl⟩

/-- C4 (amended): the five close operations are attempted in fixed order;
success of method 1 stops after exactly one remote call, success of
method 2 stops after two; but once methods 1 and 2 have both failed,
methods 3, 4 and 5 are all attempted unconditionally, regardless of
their own outcomes. -/
theorem c4_close_order :
    ∀ env : CloseMethod → Bool,
      (env CloseMethod.participantLeftEntry = true →
        closeConversationAndSession env = [CloseMethod.participantLeftEntry])
      ∧ (env CloseMethod.participantLeftEntry = false →
          env CloseMethod.routingEndEntry = true →
          closeConversationAndSession env =
            [CloseMethod.participantLeftEntry, CloseMethod.routingEndEntry])
      ∧ (env CloseMethod.participantLeftEntry = false →
          env CloseMethod.routingEndEntry = false →
          closeConversationAndSession env =
            [CloseMethod.participantLeftEntry, CloseMethod.routingEndEntry,
             CloseMethod.closeTextMessage, CloseMethod.sessionEndDelete,
             CloseMethod.conversationDelete]) := by
  intro env
  refine ⟨?_, ?_, ?_⟩
  · intro h1; simp [closeConversationAndSession, h1]
  · intro h1 h2; simp [closeConversationAndSession, h1, h2]
  · intro h1 h2; simp [closeConversationAndSession, h1, h2]

/-- C4 witness: with every remote operation succeeding, the orchestrator
attempts only the participant-left entry post. -/
theorem c4_witness :
    closeConversationAndSession (fun _ => true) = [CloseMethod.participantLeftEntry] :=
  (c4_close_order (fun _ => true)).1 rfl

/-- C5 counterexample: a ParticipantChanged entry whose payload records that
an Agent — not the end-user — left still makes the batch count as
conversation-ended, because the code only inspects the change type. -/
theorem c5_counterexample :
    conversationEndedB [agentLeftEntry] = true
    ∧ specCloseEvent agentLeftEntry = false
    ∧ agentLeftEntry.participantRole = some "Agent" :=
  ⟨rfl, rfl, rfl⟩

/-- C5 (amended): a batch is classified conversation-ended exactly when it
contains a ConversationClose entry, or a RoutingResult entry with routing
type EndConversation, or a ParticipantChanged entry whose payload change
type is Left — the role of the leaving participant is not consulted; a
batch containing none of these is never classified as ended. -/
theorem c5_close_detection :
    ∀ raw : List ConversationEntry,
      conversationEndedB raw = true ↔
        ∃ e ∈ raw,
          (e.entryType = some "ConversationClose"
           ∨ (e.entryType = some "RoutingResult" ∧ e.routingType = some "EndConversation")
           ∨ (e.entryType = some "ParticipantChanged" ∧ e.participantChangeType = some "Left")) := by
  intro raw
  unfold conversationEndedB closeEventsOf
  rw [bne_iff_ne]
  constructor
  · intro h
    have hne : raw.filter isCloseEvent ≠ [] := by
      intro hnil
      exact h (by rw [hnil]; rfl)
    rcases List.exists_mem_of_ne_nil _ hne with ⟨e, he⟩
    have hm := List.mem_filter.mp he
    refine ⟨e, hm.1, ?_⟩
    simpa [isCloseEvent, Bool.or_eq_true, Bool.and_eq_true, beq_iff_eq, or_assoc] using hm.2
  · rintro ⟨e, he, hcond⟩
    have hp : isCloseEvent e = true := by
      simpa [isCloseEvent, Bool.or_eq_true, Bool.and_eq_true, beq_iff_eq, or_assoc] using hcond
    have hmem : e ∈ raw.filter isCloseEvent := List.mem_filter.mpr ⟨he, hp⟩
    intro hlen
    rw [List.length_eq_zero] at hlen
    rw [hlen] at hmem
    exact List.not_mem_nil e hmem

/-- C7: the close_conversation tool reports success for every session store,
sessionId and remote-outcome environment — including the environment in
which all five close operations fail. -/
theorem c7_close_always_success :
    ∀ (store : SessionStore) (sid : Option String) (env : CloseMethod → Bool),
      (closeConversationTool store sid env).success = true :=
  fun _ _ _ => rfl

/-- C8 counterexample: the empty string is a sessionId that is not in the
(empty) session store, yet create_conversation does not fail — the
JavaScript truthiness gate skips the check and the remote call proceeds. -/
theorem c8_counterexample :
    lookupSession ([] : SessionStore) "" = none
    ∧ createConversationTrace [] (some "") =
        { calls := [RemoteCall.createConversation], errorMsg := none } :=
  ⟨rfl, rfl⟩

/-- C8 (amended): for every *non-empty* sessionId unknown to the store,
create_conversation, send_message, list_conversation_entries and
get_conversation_routing_status all throw the invalid-session error
before any remote call; an empty (or absent) sessionId skips the gate;
and close_conversation proceeds best-effort with remote close attempts
regardless of the store and reports success. -/
theorem c8_session_gate :
    (∀ (store : SessionStore) (s : String), s ≠ "" → lookupSession store s = none →
       createConversationTrace store (some s) = { calls := [], errorMsg := some invalidSessionMsg }
       ∧ sendMessageTrace store (some s) = { calls := [], errorMsg := some invalidSessionMsg }
       ∧ routingStatusTrace store (some s) = { calls := [], errorMsg := some invalidSessionMsg }
       ∧ ∀ (fetch : Nat → Batch) (fuel : Nat),
           listEntriesTrace store (some s) fetch fuel = { calls := [], errorMsg := some invalidSessionMsg })
    ∧ (∀ (store : SessionStore) (sid : Option String) (env : CloseMethod → Bool),
        (closeConversationTool store sid env).success = true
        ∧ (closeConversationTool store sid env).calls ≠ []) := by
  constructor
  · intro store s hs hlk
    have hthrow : sessionLookupThrows store (some s) = true := by
      simp [sessionLookupThrows, hs, hlk]
    refine ⟨?_, ?_, ?_, ?_⟩
    · simp [createConversationTrace, hthrow]
    · simp [sendMessageTrace, hthrow]
    · simp [routingStatusTrace, hthrow]
    · intro fetch fuel; simp [listEntriesTrace, hthrow]
  · intro store sid env
    refine ⟨rfl, ?_⟩
    unfold closeConversationTool closeConversationAndSession
    split
    · simp
    · split <;> simp

/-- C8 witness: a concrete unknown sessionId against a store with one known
session fails all four gated tools with the invalid-session error and no
remote call. -/
theorem c8_witness :
    createConversationTrace demoStore (some "zzz") = { calls := [], errorMsg := some invalidSessionMsg }
    ∧ sendMessageTrace demoStore (some "zzz") = { calls := [], errorMsg := some invalidSessionMsg }
    ∧ routingStatusTrace demoStore (some "zzz") = { calls := [], errorMsg := some invalidSessionMsg }
    ∧ listEntriesTrace demoStore (some "zzz") agentFetch 3 = { calls := [], errorMsg := some invalidSessionMsg } := by
  have h := c8_session_gate.1 demoStore "zzz" (by decide) rfl
  exact ⟨h.1, h.2.1, h.2.2.1, h.2.2.2 agentFetch 3⟩

/-- C9 counterexample: the generate_authenticated_access_token tool returns
the remote token response unchanged, so the bearer credential appears
verbatim in the payload handed to the calling agent. -/
theorem c9_counterexample :
    (handleAuthenticatedToken { accessToken := "SECRET-BEARER-TOKEN", expiresIn := some 900 }).accessToken
      = "SECRET-BEARER-TOKEN" :=
  rfl

/-- C9 (amended): the guest flow stores the credential server-side and
returns a payload that is independent of the credential (only sessionId,
expiry and a fixed message), while the authenticated flow returns the
remote token response — credential included — unchanged. -/
theorem c9_guest_token_hiding :
    (∀ (store : SessionStore) (sid : String) (ex : Option Nat) (t u : String),
       (handleGuestToken store sid { accessToken := t, expiresIn := ex }).2
         = (handleGuestToken store sid { accessToken := u, expiresIn := ex }).2
       ∧ lookupSession (handleGuestToken store sid { accessToken := t, expiresIn := ex }).1 sid
         = some { accessToken := t, conversationId := none })
    ∧ (∀ resp : AccessTokenResponse, handleAuthenticatedToken resp = resp) := by
  constructor
  · intro store sid ex t u
    refine ⟨rfl, ?_⟩
    simp [handleGuestToken, lookupSession]
  · intro resp; rfl

/-- C3: a non-noise Message entry with role EndUser is rejected by the
verbatim-reply filter (the `entries` view of list_conversation_entries)
but accepted by the live-transcript filter (the `messages` view of
show_salesforce_chat). -/
theorem c3_dual_view :
    ∀ e : ConversationEntry,
      e.entryType = some "Message" →
      (e.senderRoleField).getD "" = "EndUser" →
      isNoise e = false →
      verbatimFilter e = false ∧ widgetFilter e = true := by
  intro e hT hR hN
  obtain ⟨hAP, hAR, hSM⟩ := isNoise_false_parts e hN
  constructor
  · simp [verbatimFilter, hT, hR]
  · simp [widgetFilter, hT, hR, hAP, hAR, hSM]

/-- C3 witness: the concrete end-user message is excluded from the verbatim
view and included in the transcript view. -/
theorem c3_witness :
    verbatimFilter endUserEntry = false ∧ widgetFilter endUserEntry = true :=
  c3_dual_view endUserEntry rfl rfl rfl

/-- C10: the output of list_conversation_entries is derived solely from the
final batch: the `entries` array is an order-preserving sublist of
`_rawEntries`, and two polling runs whose loops end on the same final
batch return identical results (earlier poll iterations have no effect
on entries, _rawEntries, continuationToken or _roleInfo). -/
theorem c10_result_from_last_batch :
    (∀ (sp : Bool) (fetch : Nat → Batch) (fuel : Nat),
       List.Sublist ((listConversationEntriesTool sp fetch fuel).entries)
         ((listConversationEntriesTool sp fetch fuel).rawEntries))
    ∧ (∀ (f g : Nat → Batch) (m n : Nat),
        (pollLoopGo f m).entriesResult = (pollLoopGo g n).entriesResult →
        listConversationEntriesTool true f m = listConversationEntriesTool true g n) := by
  constructor
  · intro sp fetch fuel
    simp only [listConversationEntriesTool, buildResult]
    exact List.filter_sublist _
  · intro f g m n h
    have hf := pollLoopGo_shape m f
    have hg := pollLoopGo_shape n g
    simp only [listConversationEntriesTool]
    rw [hf, hg, h]
    simp

/-- C10 witness: two polling runs with different fuel but the same final
batch return the same result. -/
theorem c10_witness :
    listConversationEntriesTool true agentFetch 0 = listConversationEntriesTool true agentFetch 5 :=
  c10_result_from_last_batch.2 agentFetch agentFetch 0 5 rfl

/-- C1 counterexample: the poll loop stops successfully on a batch whose
globally most recent Message entry is noise under the strict test
(`messageReason = AutomatedResponse`), because the poll-stop check never
consults `messageReason` — refuting the claimed stop-iff-non-noise
condition. -/
theorem c1_counterexample :
    (pollLoopGo noiseFetch 3).foundValidMessage = true
    ∧ mostRecentMessageOf (rawOfBatch (noiseFetch 0)) = some botNoiseEntry
    ∧ isNoise botNoiseEntry = true
    ∧ botNoiseEntry.senderRoleField = some "Chatbot" :=
  ⟨rfl, rfl, rfl, rfl⟩

/-- C1 (amended): in polling mode the loop stops successfully exactly when
some batch within the deadline passes the poll-stop check; the first
such batch is the one returned; if no batch qualifies before the fuel
runs out, the loop stops anyway with the last batch fetched and
`foundValidMessage = false`; and the poll-stop check holds exactly when
the globally most recent Message entry has role Chatbot or Agent, its
text contains no boilerplate phrase, and its sender display name does
not contain "Automated Process" — the `messageReason` field is not
consulted, so an entry that is noise only by `messageReason` still stops
the loop. -/
theorem c1_poll_loop_characterization :
    ∀ (fetch : Nat → Batch) (fuel : Nat),
      (((pollLoopGo fetch fuel).foundValidMessage = true) ↔
        ∃ i, i ≤ fuel ∧ stopCheckB (fetch i) = true)
      ∧ (∀ i, i ≤ fuel → (∀ j, j < i → stopCheckB (fetch j) = false) →
          stopCheckB (fetch i) = true →
          pollLoopGo fetch fuel = foundStateOf (fetch i))
      ∧ ((∀ i, i ≤ fuel → stopCheckB (fetch i) = false) →
          pollLoopGo fetch fuel = deadlineStateOf (fetch fuel)
          ∧ (listConversationEntriesTool true fetch fuel).rawEntries = rawOfBatch (fetch fuel))
      ∧ (∀ b : Batch, stopCheckB b = true ↔
          ∃ e, mostRecentMessageOf (rawOfBatch b) = some e
            ∧ ((e.senderRoleField).getD "" = "Chatbot" ∨ (e.senderRoleField).getD "" = "Agent")
            ∧ hasSystemPhrase ((e.text).getD "") = false
            ∧ strContainsSub ((e.senderDisplayName).getD "") "Automated Process" = false) := by
  intro fetch fuel
  refine ⟨pollLoopGo_found_iff fuel fetch, pollLoopGo_stop_first fuel fetch, ?_, ?_⟩
  · intro h
    have hdl := pollLoopGo_deadline fuel fetch h
    refine ⟨hdl, ?_⟩
    simp [listConversationEntriesTool, buildResult, hdl, deadlineStateOf]
  · intro b
    unfold stopCheckB
    cases hm : mostRecentMessageOf (rawOfBatch b) with
    | none =>
      constructor
      · intro h
        exact absurd h (by simp [pollStopValid])
      · rintro ⟨e, he, _⟩
        exact absurd he (by simp)
    | some e =>
      have hred : pollStopValid (some e) =
          ((((e.senderRoleField).getD "" == "Chatbot") || ((e.senderRoleField).getD "" == "Agent"))
            && !(hasSystemPhrase ((e.text).getD ""))
            && !(strContainsSub ((e.senderDisplayName).getD "") "Automated Process")) := rfl
      rw [hred]
      constructor
      · intro h
        rw [Bool.and_eq_true, Bool.and_eq_true] at h
        refine ⟨e, rfl, ?_, ?_, ?_⟩
        · simpa using h.1.1
        · simpa using h.1.2
        · simpa using h.2
      · rintro ⟨e', he', hrole, hph, hap⟩
        have hee : e = e' := Option.some.inj he'
        subst hee
        rw [Bool.and_eq_true, Bool.and_eq_true]
        refine ⟨⟨?_, ?_⟩, ?_⟩
        · simpa using hrole
        · simpa using hph
        · simpa using hap

/-- C1 witness: a batch whose most recent entry is a clean agent reply stops
the loop on the first poll. -/
theorem c1_witness :
    pollLoopGo agentFetch 3 = foundStateOf (agentFetch 0) :=
  (c1_poll_loop_characterization agentFetch 3).2.1 0 (Nat.zero_le 3)
    (fun j hj => absurd hj (Nat.not_lt_zero j)) rfl

/-- C6: `isLiveAgent` is true exactly when the most recent qualifying
response (non-noise Chatbot/Agent message of the final batch) has role
"Agent"; a Chatbot response never yields `isLiveAgent = true`; and a
batch whose globally most recent message has role Agent and is not noise
stops the polling loop on the first poll with `isLiveAgent = true`. -/
theorem c6_live_agent_handoff :
    (∀ st : PollState,
       (((buildResult st).roleInfo.isLiveAgent = true) ↔
         (mostRecentResponseOf (rawOfBatch st.entriesResult)).map
           (fun e => (e.senderRoleField).getD "") = some "Agent"))
    ∧ (∀ st : PollState,
        (mostRecentResponseOf (rawOfBatch st.entriesResult)).map
          (fun e => (e.senderRoleField).getD "") = some "Chatbot" →
        (buildResult st).roleInfo.isLiveAgent = false)
    ∧ (∀ (fetch : Nat → Batch) (fuel : Nat) (e : ConversationEntry),
        mostRecentMessageOf (rawOfBatch (fetch 0)) = some e →
        e.senderRoleField = some "Agent" →
        isNoise e = false →
        pollLoopGo fetch fuel = foundStateOf (fetch 0)
        ∧ (listConversationEntriesTool true fetch fuel).roleInfo.isLiveAgent = true) := by
  have hmain : ∀ st : PollState,
      (((buildResult st).roleInfo.isLiveAgent = true) ↔
        (mostRecentResponseOf (rawOfBatch st.entriesResult)).map
          (fun e => (e.senderRoleField).getD "") = some "Agent") := by
    intro st
    cases hm : mostRecentResponseOf (rawOfBatch st.entriesResult) with
    | none =>
      simp [buildResult, hm, jsOr]
    | some e =>
      have hq := respFilter_of_mostRecentResponse _ _ hm
      have hrole := respFilter_role e hq
      have hne : (e.senderRoleField).getD "" ≠ "" := by
        rcases hrole with hr | hr <;> rw [hr] <;> decide
      have hj := jsOr_of_getD_ne (e.senderRoleField) (jsOr (e.senderRoleTop) "Unknown") hne
      simp [buildResult, hm, hj, beq_iff_eq]
  refine ⟨hmain, ?_, ?_⟩
  · intro st hmap
    cases hb : (buildResult st).roleInfo.isLiveAgent with
    | false => rfl
    | true =>
      have hA := (hmain st).mp hb
      rw [hmap] at hA
      exact absurd hA (by decide)
  · intro fetch fuel e hm hrole hnoise
    obtain ⟨hAP, hAR, hSM⟩ := isNoise_false_parts e hnoise
    have hget : (e.senderRoleField).getD "" = "Agent" := by rw [hrole]; rfl
    have hq : respFilter e = true := by
      simp [respFilter, hget, hAP, hAR, hSM]
    have hstop : stopCheckB (fetch 0) = true := by
      unfold stopCheckB
      rw [hm]
      simp [pollStopValid, hget, hSM, hAP]
    have hloop : pollLoopGo fetch fuel = foundStateOf (fetch 0) := by
      cases fuel with
      | zero => simp [pollLoopGo, hstop]
      | succ n => simp [pollLoopGo, hstop]
    refine ⟨hloop, ?_⟩
    have hmr : mostRecentResponseOf (rawOfBatch (fetch 0)) = some e :=
      mostRecentResponseOf_eq_of_mostRecent _ _ hm hq
    have hfs : (listConversationEntriesTool true fetch fuel) = buildResult (foundStateOf (fetch 0)) := by
      simp [listConversationEntriesTool, hloop]
    rw [hfs]
    apply (hmain (foundStateOf (fetch 0))).mpr
    have hent : (foundStateOf (fetch 0)).entriesResult = fetch 0 := rfl
    rw [hent, hmr]
    simp [hget]

/-- C6 witness: the concrete agent batch stops the loop on the first poll
and reports `isLiveAgent = true`. -/
theorem c6_witness :
    (listConversationEntriesTool true agentFetch 4).roleInfo.isLiveAgent = true :=
  (c6_live_agent_handoff.2.2 agentFetch 4 agentEntry rfl rfl rfl).2

theorem jsOr_empty (o : Option String) : jsOr o "" = o.getD "" := by
  cases o with
  | none => rfl
  | some s =>
    by_cases h : s = ""
    · simp [jsOr, h, Option.getD]
    · simp [jsOr, h, Option.getD]

/-- C2 counterexample: one concrete entry — a Chatbot Message with
`messageReason = AutomatedResponse` and otherwise clean sender/text — is
treated as a qualifying (non-noise) response by the poll-stop check, is
rejected as noise by the verbatim-reply filter, and is accepted by the
immediate-mode role fallback: the filter sites do not classify noise
identically. -/
theorem c2_counterexample :
    pollStopValid (some botNoiseEntry) = true
    ∧ isNoise botNoiseEntry = true
    ∧ verbatimFilter botNoiseEntry = false
    ∧ vmRoleFilter botNoiseEntry = true
    ∧ isMessageEntry botNoiseEntry = true
    ∧ botNoiseEntry.senderRoleField = some "Chatbot" :=
  ⟨rfl, rfl, rfl, rfl, rfl, rfl⟩

/-- C2 (amended): the boilerplate-phrase list is one shared definition, but
the noise classification differs by site: the poll-stop check ignores
`messageReason` entirely; the immediate-mode role fallback ignores
sender, reason and text entirely; the role-metadata (`responseMessages`)
and widget-transcript filters agree with the strict three-part noise
test; and the verbatim-reply filter equals the strict filter
strengthened by an extra lowercase "automated" sender test (given no
top-level `messageReason` fallback is present). -/
theorem c2_noise_sites :
    (∀ (e : ConversationEntry) (r : Option String),
       pollStopValid (some { e with messageReason := r }) = pollStopValid (some e))
    ∧ (∀ (e : ConversationEntry) (r t s n : Option String),
        vmRoleFilter { e with messageReason := r, messageReasonTop := t,
                              senderDisplayName := s, text := n } = vmRoleFilter e)
    ∧ (∀ e : ConversationEntry, vmRoleFilter e = true → respFilter e = !(isNoise e))
    ∧ (∀ e : ConversationEntry, e.entryType = some "Message" → vmRoleFilter e = true →
        widgetFilter e = !(isNoise e))
    ∧ (∀ e : ConversationEntry, e.entryType = some "Message" → e.messageReasonTop = none →
        verbatimFilter e =
          (respFilter e && !(strContainsSub ((e.senderDisplayName).getD "") "automated"))) := by
  refine ⟨fun e r => rfl, fun e r t s n => rfl, ?_, ?_, ?_⟩
  · intro e hvm
    have hrole : (e.senderRoleField).getD "" = "Chatbot" ∨ (e.senderRoleField).getD "" = "Agent" := by
      simpa [vmRoleFilter] using hvm
    rcases hrole with hr | hr <;> simp [respFilter, isNoise, hr, Bool.not_or]
  · intro e hT hvm
    have hrole : (e.senderRoleField).getD "" = "Chatbot" ∨ (e.senderRoleField).getD "" = "Agent" := by
      simpa [vmRoleFilter] using hvm
    rcases hrole with hr | hr <;> simp [widgetFilter, isNoise, hT, hr, Bool.not_or]
  · intro e hT hTop
    have hjs : jsOr e.messageReason (jsOr e.messageReasonTop "") = (e.messageReason).getD "" := by
      rw [hTop]
      exact jsOr_empty e.messageReason
    by_cases hrc : (e.senderRoleField).getD "" = "Chatbot"
    · simp [verbatimFilter, respFilter, hT, hjs, hrc, Bool.not_or]
      cases hA : strContainsSub ((e.senderDisplayName).getD "") "Automated Process" <;>
        cases hB : strContainsSub ((e.senderDisplayName).getD "") "automated" <;>
          cases hR : ((e.messageReason).getD "" == "AutomatedResponse") <;>
            cases hS : hasSystemPhrase ((e.text).getD "") <;> simp
    · by_cases hra : (e.senderRoleField).getD "" = "Agent"
      · simp [verbatimFilter, respFilter, hT, hjs, hra, Bool.not_or]
        cases hA : strContainsSub ((e.senderDisplayName).getD "") "Automated Process" <;>
          cases hB : strContainsSub ((e.senderDisplayName).getD "") "automated" <;>
            cases hR : ((e.messageReason).getD "" == "AutomatedResponse") <;>
              cases hS : hasSystemPhrase ((e.text).getD "") <;> simp
      · have hc : ((e.senderRoleField).getD "" == "Chatbot") = false := by
          simp [hrc]
        have ha : ((e.senderRoleField).getD "" == "Agent") = false := by
          simp [hra]
        simp [verbatimFilter, respFilter, hT, hjs, hc, ha]

/-- C2 witness: the amended site relations evaluated at concrete entries. -/
theorem c2_witness :
    respFilter botNoiseEntry = !(isNoise botNoiseEntry)
    ∧ verbatimFilter agentEntry =
        (respFilter agentEntry && !(strContainsSub ((agentEntry.senderDisplayName).getD "") "automated")) :=
  ⟨c2_noise_sites.2.2.1 botNoiseEntry rfl,
   c2_noise_sites.2.2.2.2 agentEntry rfl rfl⟩

/-- C5 witness: the amended detection applied to a concrete batch with a
ParticipantChanged/Left entry. -/
theorem c5_witness : conversationEndedB [agentLeftEntry] = true :=
  (c5_close_detection [agentLeftEntry]).mpr
    ⟨agentLeftEntry, List.mem_singleton.mpr rfl, Or.inr (Or.inr ⟨rfl, rfl⟩)⟩
